import Mathlib

/-!
Verification development for the simple_logs C++ logging library
(header `logs.hpp`, namespace `logs`).

The definitions below are a shallow embedding of the newest generation of
the header: the `Severity` enumeration, the `SeverityPredicat` filter
algebra, `BasicFrontend` filter management, `SimpleLogger` dispatch, the
`LOG_FAILURE` / `LOG_THROW` macros, and the boost::format-based message
and record rendering (the positional substitution engine itself is an
external library, modelled from its documented contract).

C++ exceptions are modelled with `Except LogError`; calling a null
`std::function` is the `badFunctionCall` error, `std::runtime_error` and
`std::invalid_argument` carry their message strings.
-/

/-- Exceptions the embedded code can raise.
`runtimeError` models `std::runtime_error`, `invalidArgument` models
`std::invalid_argument`, `badFunctionCall` models `std::bad_function_call`
(invocation of a null `std::function`), `tooFewArgs` / `tooManyArgs` model
`boost::io::too_few_args` / `too_many_args`, and `nullDeref` models a
dereference of a null `shared_ptr` (undefined behaviour in C++). -/
inductive LogError
  | runtimeError (msg : String)
  | invalidArgument (msg : String)
  | badFunctionCall
  | tooFewArgs
  | tooManyArgs
  | nullDeref
deriving DecidableEq

/-- Embeds `enum class Severity { Placeholder, Trace, Debug, Info, Warning, Throw,
Error, Failure }` from `logs.hpp`. -/
inductive Severity
  | Placeholder
  | Trace
  | Debug
  | Info
  | Warning
  | Throw
  | Error
  | Failure
deriving DecidableEq, Fintype

/-- The integer value of each enumerator (`static_cast<int>`), following the
declaration order in the C++ enum. -/
def Severity.toInt : Severity → Int
  | .Placeholder => 0
  | .Trace => 1
  | .Debug => 2
  | .Info => 3
  | .Warning => 4
  | .Throw => 5
  | .Error => 6
  | .Failure => 7

/-- Rank of a concrete severity in the total order declared by the spec:
Trace < Debug < Info < Warning < Throw < Error < Failure.  `Placeholder` is
not part of the declared order; its rank is an arbitrary default and every
theorem using `rank` assumes concreteness. -/
def Severity.rank : Severity → Nat
  | .Placeholder => 0
  | .Trace => 0
  | .Debug => 1
  | .Info => 2
  | .Warning => 3
  | .Throw => 4
  | .Error => 5
  | .Failure => 6

/-- Embeds `toString(Severity)` from `logs.hpp`; the `default` branch asserts and
returns the empty string. -/
def Severity.toText : Severity → String
  | .Trace => "TRC"
  | .Debug => "DBG"
  | .Info => "INF"
  | .Warning => "WRN"
  | .Error => "ERR"
  | .Failure => "FLR"
  | .Throw => "THR"
  | .Placeholder => ""

/-- Embeds `class SeverityPredicat`, which wraps a `std::function<bool(Severity)>`.
`none` models the null function (`SeverityPredicat{nullptr}`); a stored
function may itself raise when invoked. -/
structure SeverityPredicat where
  predicate : Option (Severity → Except LogError Bool)

/-- Embeds `SeverityPredicat::operator bool()`: whether the wrapped
`std::function` holds a callable target. -/
def SeverityPredicat.toBool (p : SeverityPredicat) : Bool :=
  p.predicate.isSome

/-- Embeds `SeverityPredicat::operator()(Severity)`: invoking the wrapped
function; invoking a null `std::function` raises `std::bad_function_call`. -/
def SeverityPredicat.apply (p : SeverityPredicat) (input : Severity) :
    Except LogError Bool :=
  match p.predicate with
  | none => .error .badFunctionCall
  | some f => f input

/-- The converting constructor `SeverityPredicat(Severity sev)`: equality
test against the stored level (on the enum integer values). -/
def SeverityPredicat.ofSeverity (sev : Severity) : SeverityPredicat :=
  ⟨some fun input => .ok (decide (sev.toInt = input.toInt))⟩

/-- Embeds `operator&&(SeverityPredicat, SeverityPredicat)`: builds a predicate
evaluating `lhs(input) && rhs(input)` (C++ `&&` short-circuits, and an
exception from either operand propagates). -/
def predAnd (lhs rhs : SeverityPredicat) : SeverityPredicat :=
  ⟨some fun input =>
    match lhs.apply input with
    | .error e => .error e
    | .ok false => .ok false
    | .ok true => rhs.apply input⟩

/-- Embeds `operator||(SeverityPredicat, SeverityPredicat)`: builds a predicate
evaluating `lhs(input) || rhs(input)` with C++ short-circuit. -/
def predOr (lhs rhs : SeverityPredicat) : SeverityPredicat :=
  ⟨some fun input =>
    match lhs.apply input with
    | .error e => .error e
    | .ok true => .ok true
    | .ok false => rhs.apply input⟩

/-- Embeds `invalidPredicate(Severity)`: unconditionally throws
`std::runtime_error{"invalid predicate calling"}`. -/
def invalidPredicate : Severity → Except LogError Bool :=
  fun _ => .error (.runtimeError "invalid predicate calling")

/-- Embeds `makePredicate(lhs, rhs, op)` from `logs.hpp`: placeholder on the left
yields `op(input, rhs)`, placeholder on the right yields `op(lhs, input)`;
with two concrete levels the comparison is evaluated at construction and
the result is either the throwing `invalidPredicate` (convertible to true)
or the null predicate (convertible to false). -/
def makePredicate (lhs rhs : Severity) (op : Int → Int → Bool) :
    SeverityPredicat :=
  if lhs = Severity.Placeholder then
    ⟨some fun input => .ok (op input.toInt rhs.toInt)⟩
  else if rhs = Severity.Placeholder then
    ⟨some fun input => .ok (op lhs.toInt input.toInt)⟩
  else if op lhs.toInt rhs.toInt then
    ⟨some invalidPredicate⟩
  else
    ⟨none⟩

/-- Embeds `operator!=(Severity, Severity)` (`std::not_equal_to<int>`). -/
def sevNe (lhs rhs : Severity) : SeverityPredicat :=
  makePredicate lhs rhs (fun x y => decide (x ≠ y))

/-- Embeds `operator==(Severity, Severity)` (`std::equal_to<int>`). -/
def sevEq (lhs rhs : Severity) : SeverityPredicat :=
  makePredicate lhs rhs (fun x y => decide (x = y))

/-- Embeds `operator<(Severity, Severity)` (`std::less<int>`). -/
def sevLt (lhs rhs : Severity) : SeverityPredicat :=
  makePredicate lhs rhs (fun x y => decide (x < y))

/-- Embeds `operator>(Severity, Severity)` (`std::greater<int>`). -/
def sevGt (lhs rhs : Severity) : SeverityPredicat :=
  makePredicate lhs rhs (fun x y => decide (x > y))

/-- Embeds `operator<=(Severity, Severity)` (`std::less_equal<int>`). -/
def sevLe (lhs rhs : Severity) : SeverityPredicat :=
  makePredicate lhs rhs (fun x y => decide (x ≤ y))

/-- Embeds `operator>=(Severity, Severity)` (`std::greater_equal<int>`). -/
def sevGe (lhs rhs : Severity) : SeverityPredicat :=
  makePredicate lhs rhs (fun x y => decide (x ≥ y))

/-- Embeds `operator!(Severity)`: `makePredicate(Placeholder, val, not_equal_to)`. -/
def sevNot (val : Severity) : SeverityPredicat :=
  makePredicate Severity.Placeholder val (fun x y => decide (x ≠ y))

/-- One element of a parsed boost::format template: a literal piece of
text or a positional directive `%n%`. -/
inductive FmtItem
  | lit (s : String)
  | arg (n : Nat)
deriving DecidableEq

/-- The number of arguments a template expects: the largest positional
index used by a directive (boost::format numbers directives from 1). -/
def maxPlaceholder : List FmtItem → Nat
  | [] => 0
  | .lit _ :: rest => maxPlaceholder rest
  | .arg n :: rest => max n (maxPlaceholder rest)

/-- Modelled from the spec: the external positional-argument
message-template substitution engine (`boost::format`).  A format object
holds the parsed template, the arguments fed so far, and the two relevant
exception-mask bits: `tooFewOk` (the `too_few_args` bit is cleared, so a
missing argument is tolerated) and `tooManyOk` (the `too_many_args` bit is
cleared, so a surplus argument is ignored). -/
structure BoostFormat where
  items : List FmtItem
  fed : List String
  tooFewOk : Bool
  tooManyOk : Bool
deriving DecidableEq

/-- The argument count the format object expects. -/
def BoostFormat.bound (f : BoostFormat) : Nat :=
  maxPlaceholder f.items

/-- Modelled from the spec: feeding one argument (`operator%`).  While the
object is not yet full the argument is bound to the next position; feeding
a full object is silently ignored when the `too_many_args` bit is cleared
and raises otherwise. -/
def BoostFormat.feed (f : BoostFormat) (a : String) :
    Except LogError BoostFormat :=
  if f.fed.length < f.bound then .ok { f with fed := f.fed ++ [a] }
  else if f.tooManyOk then .ok f
  else .error .tooManyArgs

/-- Rendering one template item against the fed arguments: a directive
whose position received no argument stays literal (`%n%`). -/
def renderItem (fed : List String) : FmtItem → String
  | .lit s => s
  | .arg n => if 1 ≤ n ∧ n ≤ fed.length then fed.getD (n - 1) ""
              else "%" ++ toString n ++ "%"

/-- Rendering a whole template in order. -/
def renderAll (fed : List String) : List FmtItem → String
  | [] => ""
  | it :: rest => renderItem fed it ++ renderAll fed rest

/-- Modelled from the spec: `boost::format::str()`.  An under-fed object
raises `too_few_args` unless that bit is cleared, in which case unfed
directives stay literal in the output. -/
def BoostFormat.str (f : BoostFormat) : Except LogError String :=
  if f.fed.length < f.bound ∧ f.tooFewOk = false then .error .tooFewArgs
  else .ok (renderAll f.fed f.items)

/-- Embeds `getLogFormat(format)` from `logs.hpp`: builds the user-message format
object with both `too_few_args` and `too_many_args` exception bits
cleared. -/
def getLogFormat (items : List FmtItem) : BoostFormat :=
  { items := items, fed := [], tooFewOk := true, tooManyOk := true }

/-- A record-template format object as built inside the frontends:
`all_error_bits ^ too_many_args_bit`, so only surplus arguments are
tolerated and a missing field raises. -/
def recordFormat (items : List FmtItem) : BoostFormat :=
  { items := items, fed := [], tooFewOk := false, tooManyOk := true }

/-- Embeds `doFormat(format, args...)` from `logs.hpp`: folds `operator%` over
the argument list. -/
def doFormat (f : BoostFormat) : List String → Except LogError BoostFormat
  | [] => .ok f
  | a :: rest =>
    match f.feed a with
    | .error e => .error e
    | .ok g => doFormat g rest

/-- Embeds `messageHandler(messageFormat, args...)` from `logs.hpp`: user-message
format object with the tolerant mask, fed with the arguments of the caller. -/
def messageHandler (tmpl : List FmtItem) (args : List String) :
    Except LogError BoostFormat :=
  doFormat (getLogFormat tmpl) args

/-- The fully rendered user message text: `messageHandler(...).str()`. -/
def userMessageStr (tmpl : List FmtItem) (args : List String) :
    Except LogError String :=
  match messageHandler tmpl args with
  | .error e => .error e
  | .ok f => f.str

/-- Embeds `STANDARD_LOG_FORMAT` from `logs.hpp`, parsed:
`"%1% %6% [%5%] %2%:%3% %4% | %7%"`. -/
def standardLogFormatItems : List FmtItem :=
  [.arg 1, .lit " ", .arg 6, .lit " [", .arg 5, .lit "] ", .arg 2,
   .lit ":", .arg 3, .lit " ", .arg 4, .lit " | ", .arg 7]

/-- Embeds `LIGHT_LOG_FORMAT` from `logs.hpp`, parsed: `"%1% %2%:%3% | %7%"`. -/
def lightLogFormatItems : List FmtItem :=
  [.arg 1, .lit " ", .arg 2, .lit ":", .arg 3, .lit " | ", .arg 7]

/-- The metadata-assembly step shared by the frontends: build a record
format object (strict about missing fields, tolerant of surplus), feed the
metadata fields in positional order, render. -/
def assembleRecord (items : List FmtItem) (fields : List String) :
    Except LogError String :=
  match doFormat (recordFormat items) fields with
  | .error e => .error e
  | .ok f => f.str

/-- Metadata assembly against `STANDARD_LOG_FORMAT` (the 7 fields are
severity, file, line, function, time, thread, message). -/
def metadataAssemble (fields : List String) : Except LogError String :=
  assembleRecord standardLogFormatItems fields

/-- Embeds `StandardFrontend::makeRecord` from `logs.hpp`.  The wall-clock time
and thread id are impure inputs, passed here as parameters; the user
message format object is rendered by streaming it into the record. -/
def StandardFrontend.makeRecord (timePoint threadId : String)
    (severity : Severity) (fileName : String) (lineNumber : Int)
    (functionName : String) (message : BoostFormat) :
    Except LogError String :=
  match message.str with
  | .error e => .error e
  | .ok m =>
    metadataAssemble [severity.toText, fileName, toString lineNumber,
                      functionName, timePoint, threadId, m]

/-- Embeds `LightFrontend::makeRecord` from `logs.hpp`: same shape, the
`LIGHT_LOG_FORMAT` template, empty strings for time and thread. -/
def LightFrontend.makeRecord (severity : Severity) (fileName : String)
    (lineNumber : Int) (functionName : String) (message : BoostFormat) :
    Except LogError String :=
  match message.str with
  | .error e => .error e
  | .ok m =>
    assembleRecord lightLogFormatItems
      [severity.toText, fileName, toString lineNumber, functionName,
       "", "", m]

/-- Embeds `BasicFrontend`: the active filter plus the virtual `makeRecord`
member (modelled as a function field; an exception from it inside the
noexcept dispatch is an error). -/
structure Frontend where
  filter : SeverityPredicat
  render : Severity → String → Int → String → BoostFormat →
           Except LogError String

/-- Default filter installed by the `BasicFrontend` constructor:
`Severity::Placeholder >= Severity::Trace`. -/
def defaultFilter : SeverityPredicat :=
  sevGe Severity.Placeholder Severity.Trace

/-- Embeds `BasicFrontend::setFilter` from `logs.hpp`: throws
`std::invalid_argument` when the predicate is not boolean-testable, and
only otherwise installs it.  The pair returns the frontend state after the
call together with the raised exception, if any: the throw happens before
the assignment, so on failure the state is unchanged. -/
def Frontend.setFilter (fe : Frontend) (filter : SeverityPredicat) :
    Frontend × Option LogError :=
  if filter.toBool = false then
    (fe, some (.invalidArgument "invalid severity filter"))
  else
    ({ fe with filter := filter }, none)

deriving instance DecidableEq for Except

/-- Embeds `BasicBackend`: the virtual `consume` member writes the record to the
device of the backend; here a backend is identified by an id and consumption is
recorded in the dispatch event trace. -/
structure Backend where
  id : Nat

/-- Embeds `struct Sink { shared_ptr<BasicFrontend> frontend;
shared_ptr<BasicBackend> backend; }`; `none` models a null pointer. -/
structure Sink where
  frontend : Option Frontend
  backend : Option Backend

/-- Observable work of one `SimpleLogger::log` call: `rendered i r` means
the frontend of sink `i` produced record `r`; `consumed i b r` means the
backend (id `b`) of sink `i` received record `r`. -/
inductive LogEvent
  | rendered (sinkIdx : Nat) (record : String)
  | consumed (sinkIdx : Nat) (backendId : Nat) (record : String)
deriving DecidableEq

/-- The loop body of `SimpleLogger::log`, iterating the sink list from
index `i`: dereference the frontend, evaluate its filter on the severity,
and only on acceptance render the record and hand it to the backend.  An
exception anywhere (null dereference, throwing filter, throwing renderer)
aborts the call: `log` is noexcept in C++, so a thrown exception
terminates the process. -/
def logGo (sev : Severity) (file : String) (line : Int) (fn : String)
    (msg : BoostFormat) : Nat → List Sink →
    Except LogError (List LogEvent)
  | _, [] => .ok []
  | i, snk :: rest =>
    match snk.frontend with
    | none => .error .nullDeref
    | some fe =>
      match fe.filter.apply sev with
      | .error e => .error e
      | .ok false => logGo sev file line fn msg (i + 1) rest
      | .ok true =>
        match fe.render sev file line fn msg with
        | .error e => .error e
        | .ok record =>
          match snk.backend with
          | none => .error .nullDeref
          | some be =>
            match logGo sev file line fn msg (i + 1) rest with
            | .error e => .error e
            | .ok evs =>
              .ok (.rendered i record :: .consumed i be.id record :: evs)

/-- Embeds `SimpleLogger::log(severity, fileName, lineNumber, functionName,
message)` over the ordered sink list of the logger. -/
def SimpleLogger.log (sinks : List Sink) (sev : Severity) (file : String)
    (line : Int) (fn : String) (msg : BoostFormat) :
    Except LogError (List LogEvent) :=
  logGo sev file line fn msg 0 sinks

/-- Embeds `SimpleLogger::addSink(sink)`: throws `std::invalid_argument` when the
frontend or the backend pointer is null, otherwise appends the sink at the
end of the list.  The pair returns the sink list after the call together
with the raised exception, if any: both throws happen before
`emplace_back`, so on failure the list is unchanged. -/
def SimpleLogger.addSink (sinks : List Sink) (sink : Sink) :
    List Sink × Option LogError :=
  match sink.frontend with
  | none => (sinks, some (.invalidArgument "invalid logger frontend"))
  | some _ =>
    match sink.backend with
    | none => (sinks, some (.invalidArgument "invalid logger backend"))
    | some _ => (sinks ++ [sink], none)

/-- How a modelled program fragment finishes: fall through normally, call
`exit(code)`, throw exception `exn` carrying `payload`, or die on an
exception escaping a noexcept log call (`std::terminate`). -/
inductive Outcome
  | normal
  | exited (code : Nat)
  | threw (exn : String) (payload : String)
  | aborted (e : LogError)
deriving DecidableEq

/-- Sequential composition of two modelled fragments: the second runs only
when the first falls through; `exit`, `throw` and termination all stop the
calling code. -/
def progSeq (p q : List LogEvent × Outcome) : List LogEvent × Outcome :=
  match p.2 with
  | .normal => (p.1 ++ q.1, q.2)
  | _ => p

/-- The `LOG_FAILURE(...)` macro from `logs.hpp`:
`LOG_FORMAT(Severity::Failure, messageHandler(...)); exit(EXIT_FAILURE)`.
`EXIT_FAILURE` is 1. -/
def LOG_FAILURE (sinks : List Sink) (file : String) (line : Int)
    (fn : String) (tmpl : List FmtItem) (args : List String) :
    List LogEvent × Outcome :=
  match messageHandler tmpl args with
  | .error e => ([], .aborted e)
  | .ok msg =>
    match SimpleLogger.log sinks .Failure file line fn msg with
    | .error e => ([], .aborted e)
    | .ok evs => (evs, .exited 1)

/-- The `LOG_THROW(ExceptionType, ...)` macro from `logs.hpp`: build the
user message, `LOG_FORMAT(Severity::Throw, fmt)`, then
`throw ExceptionType{fmt.str()}`. -/
def LOG_THROW (sinks : List Sink) (exnKind : String) (file : String)
    (line : Int) (fn : String) (tmpl : List FmtItem)
    (args : List String) : List LogEvent × Outcome :=
  match messageHandler tmpl args with
  | .error e => ([], .aborted e)
  | .ok fmt =>
    match SimpleLogger.log sinks .Throw file line fn fmt with
    | .error e => ([], .aborted e)
    | .ok evs =>
      match fmt.str with
      | .error e => (evs, .aborted e)
      | .ok payload => (evs, .threw exnKind payload)

/-- The events one sink contributes to a successful `log` call: nothing
when the frontend is rejected by its filter, a render followed by a
consume when accepted.  (The error branches return junk and are reached
only when the whole call aborts.) -/
def sinkEvents (sev : Severity) (file : String) (line : Int) (fn : String)
    (msg : BoostFormat) : Nat × Sink → List LogEvent
  | (i, snk) =>
    match snk.frontend with
    | none => []
    | some fe =>
      match fe.filter.apply sev with
      | .error _ => []
      | .ok false => []
      | .ok true =>
        match fe.render sev file line fn msg with
        | .error _ => []
        | .ok record =>
          match snk.backend with
          | none => []
          | some be => [.rendered i record, .consumed i be.id record]

/-- A renderer for the concrete examples below: ignores its inputs and
produces a fixed record. -/
def testRender : Severity → String → Int → String → BoostFormat →
    Except LogError String :=
  fun _ _ _ _ _ => .ok "record"

/-- A frontend carrying the constructor-default filter
(`Placeholder >= Trace`, accepting every concrete severity). -/
def testFrontendAccept : Frontend :=
  ⟨defaultFilter, testRender⟩

/-- A frontend filtered to exactly `Error`
(`SeverityPredicat{Severity::Error}`). -/
def testFrontendError : Frontend :=
  ⟨SeverityPredicat.ofSeverity .Error, testRender⟩

/-- A one-literal user message. -/
def testMsg : BoostFormat := getLogFormat [.lit "hello"]

/-- A valid sink: accepting frontend, backend 0. -/
def testSinkA : Sink := ⟨some testFrontendAccept, some ⟨0⟩⟩

/-- A valid sink: Error-only frontend, backend 1. -/
def testSinkR : Sink := ⟨some testFrontendError, some ⟨1⟩⟩

/-- An invalid sink: null frontend. -/
def testSinkBad : Sink := ⟨none, some ⟨2⟩⟩

/-- The `bound` of a format object does not depend on the arguments fed
so far. -/
theorem bound_fed (f : BoostFormat) (x : List String) :
    ({ f with fed := x } : BoostFormat).bound = f.bound := rfl

/-- A successful `log` call starting at index `i` produces exactly the
concatenation, in list order, of the events of each sink. -/
theorem logGo_ok_events (sev : Severity) (file : String) (line : Int)
    (fn : String) (msg : BoostFormat) :
    ∀ (sinks : List Sink) (i : Nat) (evs : List LogEvent),
      logGo sev file line fn msg i sinks = .ok evs →
      evs = ((List.enumFrom i sinks).map
              (sinkEvents sev file line fn msg)).flatten := by
  intro sinks
  induction sinks with
  | nil =>
    intro i evs h
    simp only [logGo] at h
    injection h with h
    simp [← h, List.enumFrom]
  | cons snk rest ih =>
    intro i evs h
    simp only [logGo] at h
    split at h
    · cases h
    · rename_i fe hfe
      split at h
      · cases h
      · rename_i hap
        have hrec := ih (i + 1) evs h
        simp [List.enumFrom, sinkEvents, hfe, hap, hrec]
      · rename_i hap
        split at h
        · cases h
        · rename_i record hr
          split at h
          · cases h
          · rename_i be hbe
            split at h
            · cases h
            · rename_i evs2 hgo
              injection h with h
              have hrec := ih (i + 1) evs2 hgo
              simp [← h, List.enumFrom, sinkEvents, hfe, hap, hr, hbe,
                    hrec]

/-- Feeding any argument list into a format object whose `too_many_args`
bit is cleared never raises: the arguments are bound positionally up to
the expected count of the template and the surplus is dropped. -/
theorem doFormat_ok (args : List String) :
    ∀ f : BoostFormat, f.tooManyOk = true →
      doFormat f args =
        .ok { f with fed := f.fed ++ args.take (f.bound - f.fed.length) } := by
  induction args with
  | nil =>
    intro f hf
    simp [doFormat]
  | cons a rest ih =>
    intro f hf
    simp only [doFormat, BoostFormat.feed]
    by_cases hlt : f.fed.length < f.bound
    · rw [if_pos hlt]
      show doFormat { f with fed := f.fed ++ [a] } rest = _
      rw [ih { f with fed := f.fed ++ [a] } hf]
      simp only [bound_fed]
      have key : (f.fed ++ [a]) ++
            List.take (f.bound - (f.fed ++ [a]).length) rest
          = f.fed ++ List.take (f.bound - f.fed.length) (a :: rest) := by
        rw [List.append_assoc, List.singleton_append, List.length_append,
            List.length_singleton a]
        have h2 : f.bound - f.fed.length =
            (f.bound - (f.fed.length + 1)) + 1 := by omega
        rw [h2, List.take_succ_cons]
      exact congrArg Except.ok
        (congrArg (fun x => { f with fed := x }) key)
    · rw [if_neg hlt, if_pos hf]
      show doFormat f rest = _
      rw [ih f hf]
      have hz : f.bound - f.fed.length = 0 := by omega
      simp [hz]

/-- The function `messageHandler` never raises: the user-message mask tolerates both
too few and too many arguments. -/
theorem messageHandler_eq (tmpl : List FmtItem) (args : List String) :
    messageHandler tmpl args =
      .ok { items := tmpl, fed := args.take (maxPlaceholder tmpl),
            tooFewOk := true, tooManyOk := true } := by
  have h := doFormat_ok args (getLogFormat tmpl) rfl
  simpa [messageHandler, getLogFormat, BoostFormat.bound] using h

/-- Calling `str()` on a format object whose `too_few_args` bit is cleared never
raises. -/
theorem str_ok (f : BoostFormat) (h : f.tooFewOk = true) :
    f.str = .ok (renderAll f.fed f.items) := by
  simp [BoostFormat.str, h]

/-- The rendered user message, in closed form. -/
theorem userMessageStr_eq (tmpl : List FmtItem) (args : List String) :
    userMessageStr tmpl args =
      .ok (renderAll (args.take (maxPlaceholder tmpl)) tmpl) := by
  rw [userMessageStr, messageHandler_eq]
  exact str_ok _ rfl

/-- Rendering distributes over template concatenation. -/
theorem renderAll_append (fed : List String) (l1 l2 : List FmtItem) :
    renderAll fed (l1 ++ l2) = renderAll fed l1 ++ renderAll fed l2 := by
  induction l1 with
  | nil => simp [renderAll]
  | cons it rest ih =>
    show renderItem fed it ++ renderAll fed (rest ++ l2)
      = (renderItem fed it ++ renderAll fed rest) ++ renderAll fed l2
    rw [ih, String.append_assoc]

/-- Applying a predicate that wraps a concrete function is just calling
the function. -/
theorem apply_mk_some (f : Severity → Except LogError Bool) (s : Severity) :
    SeverityPredicat.apply ⟨some f⟩ s = f s := rfl

/-- C1: for every log call, the logger visits its registered sinks in
insertion order; for each sink it first evaluates that frontend
filter on the event severity, and only when the filter accepts does it
render a record with that frontend and pass the record to that
backend — a rejected sink incurs no rendering work and its backend
receives nothing.  (The event trace of a successful `SimpleLogger::log` call is
exactly the in-order concatenation of per-sink traces, where a rejected
sink contributes the empty trace and an accepted sink contributes its
render followed by the consume of its backend.) -/
theorem c1_log_dispatch_order
    (sinks : List Sink) (sev : Severity) (file : String) (line : Int)
    (fn : String) (msg : BoostFormat) (evs : List LogEvent)
    (h : SimpleLogger.log sinks sev file line fn msg = .ok evs) :
    evs = (sinks.enum.map (sinkEvents sev file line fn msg)).flatten :=
  logGo_ok_events sev file line fn msg sinks 0 evs h

/-- Witness for C1: a logger with an accepting sink followed by a
rejecting sink, logging at Info. -/
theorem c1_log_dispatch_order_witness :
    SimpleLogger.log [testSinkA, testSinkR] .Info "file" 3 "fn" testMsg
      = .ok [.rendered 0 "record", .consumed 0 0 "record"] ∧
    [LogEvent.rendered 0 "record", LogEvent.consumed 0 0 "record"]
      = (([testSinkA, testSinkR].enum).map
          (sinkEvents .Info "file" 3 "fn" testMsg)).flatten :=
  ⟨rfl, c1_log_dispatch_order [testSinkA, testSinkR] .Info "file" 3 "fn"
    testMsg [.rendered 0 "record", .consumed 0 0 "record"] rfl⟩

/-- C5: for every frontend and ill-formed (not boolean-testable)
predicate, `setFilter` raises the configuration error and leaves the
frontend — in particular its previously installed filter — unchanged,
installing no default in its place. -/
theorem c5_setFilter_rejects_illformed
    (fe : Frontend) (p : SeverityPredicat) (hp : p.toBool = false) :
    (fe.setFilter p).1 = fe ∧
    (fe.setFilter p).2 = some (.invalidArgument "invalid severity filter") := by
  simp [Frontend.setFilter, hp]

/-- Witness for C5: the null predicate produced by `Error < Error`. -/
theorem c5_setFilter_rejects_illformed_witness :
    (testFrontendAccept.setFilter (sevLt .Error .Error)).1
      = testFrontendAccept ∧
    (testFrontendAccept.setFilter (sevLt .Error .Error)).2
      = some (.invalidArgument "invalid severity filter") :=
  c5_setFilter_rejects_illformed testFrontendAccept (sevLt .Error .Error)
    (by decide)

/-- C6: `addSink` with a null frontend or a null backend raises the
configuration error and leaves the sink list exactly as it was; with both
members present it appends the sink at the end of the ordered list. -/
theorem c6_addSink (sinks : List Sink) (snk : Sink) :
    ((snk.frontend = none ∨ snk.backend = none) →
      (SimpleLogger.addSink sinks snk).1 = sinks ∧
      ∃ m, (SimpleLogger.addSink sinks snk).2 = some (.invalidArgument m)) ∧
    (snk.frontend ≠ none → snk.backend ≠ none →
      SimpleLogger.addSink sinks snk = (sinks ++ [snk], none)) := by
  constructor
  · intro hnull
    cases hfe : snk.frontend with
    | none =>
      refine ⟨?_, "invalid logger frontend", ?_⟩ <;>
        simp [SimpleLogger.addSink, hfe]
    | some fe =>
      cases hbe : snk.backend with
      | none =>
        refine ⟨?_, "invalid logger backend", ?_⟩ <;>
          simp [SimpleLogger.addSink, hfe, hbe]
      | some be =>
        exact absurd hnull (by simp [hfe, hbe])
  · intro hf hb
    cases hfe : snk.frontend with
    | none => exact absurd hfe hf
    | some fe =>
      cases hbe : snk.backend with
      | none => exact absurd hbe hb
      | some be => simp [SimpleLogger.addSink, hfe, hbe]

/-- Witness for C6: a null-frontend sink is rejected leaving the empty
list unchanged; a valid sink is appended. -/
theorem c6_addSink_witness :
    (SimpleLogger.addSink [] testSinkBad).1 = [] ∧
    (∃ m, (SimpleLogger.addSink [] testSinkBad).2
      = some (.invalidArgument m)) ∧
    SimpleLogger.addSink [] testSinkA = ([testSinkA], none) := by
  have h1 := (c6_addSink [] testSinkBad).1 (Or.inl rfl)
  have h2 := (c6_addSink [] testSinkA).2
    (fun h => Option.noConfusion h) (fun h => Option.noConfusion h)
  exact ⟨h1.1, h1.2, by simpa using h2⟩

/-- C7: for concrete levels a and b, the EQ predicate built from the
placeholder and concrete b, applied to a, returns exactly a == b, and the
LT/GT/LE/GE placeholder predicates agree with the declared total order
Trace < Debug < Info < Warning < Throw < Error < Failure. -/
theorem c7_placeholder_predicates
    (a b : Severity) (ha : a ≠ .Placeholder) (hb : b ≠ .Placeholder) :
    (sevEq .Placeholder b).apply a = .ok (decide (a = b)) ∧
    (sevLt .Placeholder b).apply a = .ok (decide (a.rank < b.rank)) ∧
    (sevGt .Placeholder b).apply a = .ok (decide (b.rank < a.rank)) ∧
    (sevLe .Placeholder b).apply a = .ok (decide (a.rank ≤ b.rank)) ∧
    (sevGe .Placeholder b).apply a = .ok (decide (b.rank ≤ a.rank)) := by
  revert ha hb
  revert a b
  decide

/-- Witness for C7 at a = Info, b = Warning. -/
theorem c7_placeholder_predicates_witness :
    (sevEq .Placeholder .Warning).apply .Info = .ok false ∧
    (sevLt .Placeholder .Warning).apply .Info = .ok true ∧
    (sevGt .Placeholder .Warning).apply .Info = .ok false ∧
    (sevLe .Placeholder .Warning).apply .Info = .ok true ∧
    (sevGe .Placeholder .Warning).apply .Info = .ok false :=
  c7_placeholder_predicates .Info .Warning (by decide) (by decide)

/-- Counterexample to C4: comparing two concrete levels does resolve the
comparison at construction, but not to a constant predicate.  When the
comparison holds (`Error == Error`) the result is boolean-convertible to
true yet raises `std::runtime_error` on every invocation instead of
returning true; when it fails (`Error < Error`) the result is the null
predicate, which is not well-formed and raises `std::bad_function_call`
when invoked instead of returning false. -/
theorem c4_concrete_comparison_counterexample :
    (sevEq .Error .Error).toBool = true ∧
    (sevEq .Error .Error).apply .Info =
      .error (.runtimeError "invalid predicate calling") ∧
    (sevLt .Error .Error).toBool = false ∧
    (sevLt .Error .Error).apply .Info = .error .badFunctionCall :=
  ⟨by decide, rfl, by decide, rfl⟩

/-- C4 as amended: for concrete levels a, b and any comparison, the
comparison is resolved once at construction time to a constant
boolean-convertibility — boolean-true when a op b holds, boolean-false
(the ill-formed null predicate) otherwise — but the constructed predicate
raises on every invocation in both cases: a runtime error in the true
case, a bad-function-call in the false case. -/
theorem c4_concrete_comparison_amended
    (a b : Severity) (op : Int → Int → Bool)
    (ha : a ≠ .Placeholder) (hb : b ≠ .Placeholder) :
    (op a.toInt b.toInt = true →
      (makePredicate a b op).toBool = true ∧
      ∀ s, (makePredicate a b op).apply s =
        .error (.runtimeError "invalid predicate calling")) ∧
    (op a.toInt b.toInt = false →
      (makePredicate a b op).toBool = false ∧
      ∀ s, (makePredicate a b op).apply s = .error .badFunctionCall) := by
  constructor
  · intro hop
    constructor
    · simp [makePredicate, ha, hb, hop, SeverityPredicat.toBool]
    · intro s
      simp [makePredicate, ha, hb, hop, SeverityPredicat.apply,
            invalidPredicate]
  · intro hop
    constructor
    · simp [makePredicate, ha, hb, hop, SeverityPredicat.toBool]
    · intro s
      simp [makePredicate, ha, hb, hop, SeverityPredicat.apply]

/-- Witness for the amended C4 at `Error == Error` (comparison holds) and
`Error == Failure` (comparison fails). -/
theorem c4_concrete_comparison_amended_witness :
    (makePredicate .Error .Error (fun x y => decide (x = y))).toBool
      = true ∧
    (makePredicate .Error .Error (fun x y => decide (x = y))).apply .Warning
      = .error (.runtimeError "invalid predicate calling") ∧
    (makePredicate .Error .Failure (fun x y => decide (x = y))).toBool
      = false ∧
    (makePredicate .Error .Failure (fun x y => decide (x = y))).apply .Warning
      = .error .badFunctionCall := by
  have h1 := (c4_concrete_comparison_amended .Error .Error
    (fun x y => decide (x = y)) (by decide) (by decide)).1 (by decide)
  have h2 := (c4_concrete_comparison_amended .Error .Failure
    (fun x y => decide (x = y)) (by decide) (by decide)).2 (by decide)
  exact ⟨h1.1, h1.2 .Warning, h2.1, h2.2 .Warning⟩

/-- Counterexample to C8: two well-formed (boolean-testable) predicates
for which AND is not commutative.  `Error == Error` is well-formed but
raises whenever invoked; conjoined after a predicate that returns false at
Info, the C++ `&&` short-circuits and yields false, while the swapped
order propagates the exception. -/
theorem c8_algebra_counterexample :
    (sevEq .Error .Error).toBool = true ∧
    (SeverityPredicat.ofSeverity .Error).toBool = true ∧
    (predAnd (SeverityPredicat.ofSeverity .Error)
      (sevEq .Error .Error)).apply .Info = .ok false ∧
    (predAnd (sevEq .Error .Error)
      (SeverityPredicat.ofSeverity .Error)).apply .Info =
      .error (.runtimeError "invalid predicate calling") :=
  ⟨by decide, by decide, rfl, rfl⟩

/-- C8 as amended: AND and OR on predicates are associative for all
predicates whatsoever — under either association both sides propagate the
first error in the same left-to-right evaluation order — and commutative
for predicates whose evaluation raises no error on any input (a
well-formed predicate may still raise, and the C++ short-circuit then
breaks commutativity, as the counterexample shows).  The code has no NOT
on predicates — `operator!` takes a severity level and builds the unary
inequality test — so the double-negation clause is replaced by that
characterisation. -/
theorem c8_algebra_amended :
    (∀ (p q r : SeverityPredicat) (s : Severity),
      (predAnd (predAnd p q) r).apply s
        = (predAnd p (predAnd q r)).apply s) ∧
    (∀ (p q r : SeverityPredicat) (s : Severity),
      (predOr (predOr p q) r).apply s
        = (predOr p (predOr q r)).apply s) ∧
    (∀ p q : SeverityPredicat,
      (∀ s, ∃ b, p.apply s = .ok b) →
      (∀ s, ∃ b, q.apply s = .ok b) →
      ∀ s, (predAnd p q).apply s = (predAnd q p).apply s ∧
        (predOr p q).apply s = (predOr q p).apply s) ∧
    (∀ v s : Severity,
      (sevNot v).apply s = .ok (decide (s.toInt ≠ v.toInt))) := by
  refine ⟨?_, ?_, ?_, ?_⟩
  · intro p q r s
    simp only [predAnd, apply_mk_some]
    cases hp : p.apply s with
    | error e => simp [hp]
    | ok bp => cases bp <;> simp [hp]
  · intro p q r s
    simp only [predOr, apply_mk_some]
    cases hp : p.apply s with
    | error e => simp [hp]
    | ok bp => cases bp <;> simp [hp]
  · intro p q hp hq s
    obtain ⟨bp, hbp⟩ := hp s
    obtain ⟨bq, hbq⟩ := hq s
    constructor
    · simp only [predAnd, apply_mk_some]
      rw [hbp, hbq]
      cases bp <;> cases bq <;> simp [hbp, hbq]
    · simp only [predOr, apply_mk_some]
      rw [hbp, hbq]
      cases bp <;> cases bq <;> simp [hbp, hbq]
  · intro v s
    simp [sevNot, makePredicate, apply_mk_some]

/-- Witness for the amended C8: associativity exercised on a throwing
predicate (`Error == Error`), commutativity on two concrete never-raising
predicates, both evaluated at Debug. -/
theorem c8_algebra_amended_witness :
    (predAnd (predAnd (sevEq .Error .Error)
        (SeverityPredicat.ofSeverity .Info)) defaultFilter).apply .Debug
      = (predAnd (sevEq .Error .Error)
          (predAnd (SeverityPredicat.ofSeverity .Info)
            defaultFilter)).apply .Debug ∧
    (predAnd (SeverityPredicat.ofSeverity .Info) defaultFilter).apply .Debug
      = (predAnd defaultFilter (SeverityPredicat.ofSeverity .Info)).apply
          .Debug ∧
    (sevNot .Error).apply .Error = .ok false := by
  have h := c8_algebra_amended
  exact ⟨h.1 (sevEq .Error .Error) (SeverityPredicat.ofSeverity .Info)
      defaultFilter .Debug,
    (h.2.2.1 (SeverityPredicat.ofSeverity .Info) defaultFilter
      (by decide) (by decide) .Debug).1,
    h.2.2.2 .Error .Error⟩

/-- C10: the predicate built from `Error == Error` passes the
boolean-testability check, so `setFilter` accepts and installs it, yet it
raises on every invocation; consequently every log dispatch through a
frontend carrying that filter fails at filter evaluation, whatever the
event severity (inside the noexcept `log` this terminates the process). -/
theorem c10_wellformed_but_throwing (fe : Frontend) :
    (sevEq .Error .Error).toBool = true ∧
    (fe.setFilter (sevEq .Error .Error)).2 = none ∧
    (fe.setFilter (sevEq .Error .Error)).1.filter = sevEq .Error .Error ∧
    (∀ s, (sevEq .Error .Error).apply s =
      .error (.runtimeError "invalid predicate calling")) ∧
    (∀ (be : Backend) (sev : Severity) (file : String) (line : Int)
        (fn : String) (msg : BoostFormat),
      SimpleLogger.log
        [⟨some ((fe.setFilter (sevEq .Error .Error)).1), some be⟩]
        sev file line fn msg =
      .error (.runtimeError "invalid predicate calling")) := by
  have htb : (sevEq .Error .Error).toBool = true := by decide
  have happ : ∀ s, (sevEq .Error .Error).apply s =
      .error (.runtimeError "invalid predicate calling") := fun _ => rfl
  have hset : fe.setFilter (sevEq .Error .Error)
      = ({ fe with filter := sevEq .Error .Error }, none) := by
    simp [Frontend.setFilter, htb]
  refine ⟨htb, ?_, ?_, happ, ?_⟩
  · rw [hset]
  · rw [hset]
  · intro be sev file line fn msg
    rw [hset]
    simp [SimpleLogger.log, logGo, happ sev]

/-- C2: a Failure-severity log call (the `LOG_FAILURE` macro) dispatches
its record to every registered sink whose filter accepts Failure, then the
process exits with the non-zero status `EXIT_FAILURE`; sequential
composition shows no code after the call site runs. -/
theorem c2_failure_exits
    (sinks : List Sink) (file : String) (line : Int) (fn : String)
    (tmpl : List FmtItem) (args : List String) (msg : BoostFormat)
    (evs : List LogEvent)
    (hmsg : messageHandler tmpl args = .ok msg)
    (hlog : SimpleLogger.log sinks .Failure file line fn msg = .ok evs) :
    LOG_FAILURE sinks file line fn tmpl args = (evs, .exited 1) ∧
    evs = (sinks.enum.map (sinkEvents .Failure file line fn msg)).flatten ∧
    (∀ k, progSeq (LOG_FAILURE sinks file line fn tmpl args) k
      = LOG_FAILURE sinks file line fn tmpl args) ∧
    (∀ c, (LOG_FAILURE sinks file line fn tmpl args).2 = .exited c →
      c ≠ 0) := by
  have hlf : LOG_FAILURE sinks file line fn tmpl args = (evs, .exited 1) := by
    simp [LOG_FAILURE, hmsg, hlog]
  refine ⟨hlf, logGo_ok_events _ _ _ _ _ sinks 0 evs hlog, ?_, ?_⟩
  · intro k
    rw [hlf]
    rfl
  · intro c hc
    rw [hlf] at hc
    simp at hc
    omega

/-- Witness for C2: one accepting sink, a literal message. -/
theorem c2_failure_exits_witness :
    LOG_FAILURE [testSinkA] "file" 1 "fn" [FmtItem.lit "boom"] []
      = ([.rendered 0 "record", .consumed 0 0 "record"], .exited 1) ∧
    (∀ k, progSeq
        (LOG_FAILURE [testSinkA] "file" 1 "fn" [FmtItem.lit "boom"] []) k
      = LOG_FAILURE [testSinkA] "file" 1 "fn" [FmtItem.lit "boom"] []) := by
  have h := c2_failure_exits [testSinkA] "file" 1 "fn" [FmtItem.lit "boom"]
    [] (getLogFormat [FmtItem.lit "boom"])
    [.rendered 0 "record", .consumed 0 0 "record"] rfl rfl
  exact ⟨h.1, h.2.2.1⟩

/-- C3: a Throw-severity log call (the `LOG_THROW` macro) dispatches its
record to every registered sink whose filter accepts Throw, then raises
the caller-specified error kind, whose payload is exactly the rendered
user message text (the template with its arguments substituted). -/
theorem c3_throw_payload
    (sinks : List Sink) (exnKind file : String) (line : Int) (fn : String)
    (tmpl : List FmtItem) (args : List String) (msg : BoostFormat)
    (evs : List LogEvent)
    (hmsg : messageHandler tmpl args = .ok msg)
    (hlog : SimpleLogger.log sinks .Throw file line fn msg = .ok evs) :
    ∃ payload,
      userMessageStr tmpl args = .ok payload ∧
      LOG_THROW sinks exnKind file line fn tmpl args
        = (evs, .threw exnKind payload) ∧
      evs = (sinks.enum.map (sinkEvents .Throw file line fn msg)).flatten := by
  have hmh := messageHandler_eq tmpl args
  rw [hmsg] at hmh
  injection hmh with hmh
  have hstr : msg.str
      = .ok (renderAll (args.take (maxPlaceholder tmpl)) tmpl) := by
    rw [hmh]
    exact str_ok _ rfl
  refine ⟨renderAll (args.take (maxPlaceholder tmpl)) tmpl, ?_, ?_, ?_⟩
  · rw [userMessageStr_eq]
  · simp [LOG_THROW, hmsg, hlog, hstr]
  · exact logGo_ok_events _ _ _ _ _ sinks 0 evs hlog

/-- Witness for C3: one accepting sink, a literal message; the payload is
the rendered user message. -/
theorem c3_throw_payload_witness :
    ∃ payload,
      userMessageStr [FmtItem.lit "boom"] [] = .ok payload ∧
      LOG_THROW [testSinkA] "runtime_error" "file" 1 "fn"
          [FmtItem.lit "boom"] []
        = ([.rendered 0 "record", .consumed 0 0 "record"],
           .threw "runtime_error" payload) ∧
      [LogEvent.rendered 0 "record", LogEvent.consumed 0 0 "record"]
        = (([testSinkA].enum).map
            (sinkEvents .Throw "file" 1 "fn"
              (getLogFormat [FmtItem.lit "boom"]))).flatten :=
  c3_throw_payload [testSinkA] "runtime_error" "file" 1 "fn"
    [FmtItem.lit "boom"] [] (getLogFormat [FmtItem.lit "boom"])
    [.rendered 0 "record", .consumed 0 0 "record"] rfl rfl

/-- Feeding the strict record format: arguments are bound up to the
7-field `STANDARD_LOG_FORMAT` bound, never raising at feed time. -/
theorem metadataAssemble_fed (fields : List String) :
    doFormat (recordFormat standardLogFormatItems) fields =
      .ok ⟨standardLogFormatItems, fields.take 7, false, true⟩ := by
  have hdf := doFormat_ok fields (recordFormat standardLogFormatItems) rfl
  simpa [recordFormat, BoostFormat.bound] using hdf

/-- C9: rendering the user message tolerates a mismatched argument count —
it never raises, surplus arguments beyond the expected count
are ignored, and a directive with no supplied argument stays literal
(`%n%`) in the output — while the metadata-assembly step is strict: fewer
than the 7 record fields is an error. -/
theorem c9_format_leniency :
    (∀ (tmpl : List FmtItem) (args : List String),
      ∃ s, userMessageStr tmpl args = .ok s) ∧
    (∀ (tmpl : List FmtItem) (args : List String),
      userMessageStr tmpl args
        = userMessageStr tmpl (args.take (maxPlaceholder tmpl))) ∧
    (∀ (pre post : List FmtItem) (n : Nat) (args : List String)
        (s : String),
      args.length < n →
      userMessageStr (pre ++ FmtItem.arg n :: post) args = .ok s →
      ∃ s1 s2, s = s1 ++ ("%" ++ toString n ++ "%") ++ s2) ∧
    (∀ fields : List String, fields.length < 7 →
      metadataAssemble fields = .error .tooFewArgs) := by
  refine ⟨?_, ?_, ?_, ?_⟩
  · intro tmpl args
    exact ⟨_, userMessageStr_eq tmpl args⟩
  · intro tmpl args
    rw [userMessageStr_eq, userMessageStr_eq, List.take_take]
    simp
  · intro pre post n args s hn h
    rw [userMessageStr_eq] at h
    injection h with h
    set fed := args.take (maxPlaceholder (pre ++ FmtItem.arg n :: post))
      with hfed
    have hfl : fed.length < n := by
      rw [hfed, List.length_take]
      omega
    have hit : renderItem fed (FmtItem.arg n)
        = "%" ++ toString n ++ "%" := by
      simp only [renderItem]
      rw [if_neg]
      intro hcon
      omega
    refine ⟨renderAll fed pre, renderAll fed post, ?_⟩
    rw [← h, renderAll_append]
    have hcons : renderAll fed (FmtItem.arg n :: post)
        = renderItem fed (FmtItem.arg n) ++ renderAll fed post := rfl
    rw [hcons, hit, ← String.append_assoc]
  · intro fields hlen
    have h := metadataAssemble_fed fields
    have htk : fields.take 7 = fields := List.take_of_length_le (by omega)
    rw [htk] at h
    have hb : maxPlaceholder standardLogFormatItems = 7 := rfl
    have hcond : (⟨standardLogFormatItems, fields, false, true⟩ :
          BoostFormat).fed.length <
        (⟨standardLogFormatItems, fields, false, true⟩ :
          BoostFormat).bound ∧
        (⟨standardLogFormatItems, fields, false, true⟩ :
          BoostFormat).tooFewOk = false := by
      refine ⟨?_, rfl⟩
      show fields.length < maxPlaceholder standardLogFormatItems
      rw [hb]
      exact hlen
    simp only [metadataAssemble, assembleRecord, h]
    rw [BoostFormat.str, if_pos hcond]

/-- Witness for C9: the example from the spec — a 3-directive template with one
argument leaves directives 2 and 3 literal — and a 1-field metadata
assembly fails. -/
theorem c9_format_leniency_witness :
    (∃ s1 s2, "x %2% %3%" = s1 ++ ("%" ++ toString 2 ++ "%") ++ s2) ∧
    metadataAssemble ["a"] = .error .tooFewArgs := by
  refine ⟨c9_format_leniency.2.2.1 [FmtItem.arg 1, FmtItem.lit " "]
      [FmtItem.lit " ", FmtItem.arg 3] 2 ["x"] "x %2% %3%"
      (by decide) (by rfl),
    c9_format_leniency.2.2.2 ["a"] (by decide)⟩

/-- Witness for C10: the throwing-but-accepted filter on a concrete
frontend, one concrete sink, evaluated at Info. -/
theorem c10_wellformed_but_throwing_witness :
    (testFrontendAccept.setFilter (sevEq .Error .Error)).2 = none ∧
    (sevEq .Error .Error).apply .Info =
      .error (.runtimeError "invalid predicate calling") ∧
    SimpleLogger.log
        [⟨some ((testFrontendAccept.setFilter (sevEq .Error .Error)).1),
          some ⟨5⟩⟩] .Info "f" 1 "fn" testMsg =
      .error (.runtimeError "invalid predicate calling") := by
  have h := c10_wellformed_but_throwing testFrontendAccept
  exact ⟨h.2.1, h.2.2.2.1 .Info, h.2.2.2.2 ⟨5⟩ .Info "f" 1 "fn" testMsg⟩
